import Mathlib

/-!
Verification development for the `vwrotation` repository
(`vaultwarden_scheduler` Python package).

Shallow embedding conventions:
* Python `datetime` values are modelled as `Datetime`, a count of
  microseconds since the Unix epoch, interpreted as a UTC instant.
  (`_parse_timestamp` in the source either receives an explicit UTC
  offset — which we convert into the instant — or attaches
  `timezone.utc` via the `strptime` fallbacks; naive results of
  `fromisoformat` are likewise modelled as UTC instants.)
* Python `timedelta` values are modelled as `Int` microseconds.
* Raw cipher payloads (`Dict[str, object]`) are modelled as a record of
  the fields the scheduler reads, each an `Option String`
  (`none` = key absent or JSON null).
* Environment variables are threaded as explicit `Option String`
  parameters (the source reads them via `os.getenv`).
* The digest state file is modelled by `StoredState`; I/O failures are
  modelled by explicit constructors/flags (`corrupt`, `writeOk`).
* The leading underscore of Python private helpers is dropped
  (`_parse_timestamp` becomes `parse_timestamp`, and so on); otherwise
  source names are kept.
-/

namespace VWRotation

/-- A `datetime` value: microseconds since 1970-01-01T00:00:00Z. -/
structure Datetime where
  us : Int
deriving DecidableEq, Repr

/-- `datetime + timedelta` (the timedelta is in microseconds). -/
def Datetime.add (d : Datetime) (delta : Int) : Datetime := ⟨d.us + delta⟩

/-- `datetime <= datetime` comparison of UTC instants. -/
def Datetime.le (a b : Datetime) : Prop := a.us ≤ b.us

instance : LE Datetime := ⟨Datetime.le⟩

instance (a b : Datetime) : Decidable (a ≤ b) :=
  inferInstanceAs (Decidable (a.us ≤ b.us))

def usPerSecond : Int := 1000000
def usPerDay : Int := 86400000000

/-- Civil date from a count of days since 1970-01-01 (Gregorian,
proleptic).  Standard era-based conversion. -/
def civilFromDays (z0 : Int) : Int × Int × Int :=
  let z := z0 + 719468
  let era := Int.fdiv z 146097
  let doe := z - era * 146097
  let yoe := (doe - doe / 1460 + doe / 36524 - doe / 146096) / 365
  let y := yoe + era * 400
  let doy := doe - (365 * yoe + yoe / 4 - yoe / 100)
  let mp := (5 * doy + 2) / 153
  let d := doy - (153 * mp + 2) / 5 + 1
  let m := mp + (if mp < 10 then 3 else -9)
  (y + (if m ≤ 2 then 1 else 0), m, d)

/-- Days since 1970-01-01 of a civil date (inverse of `civilFromDays`). -/
def daysFromCivil (y0 m d : Int) : Int :=
  let y := y0 - (if m ≤ 2 then 1 else 0)
  let era := Int.fdiv y 400
  let yoe := y - era * 400
  let doy := (153 * (m + (if m > 2 then -3 else 9)) + 2) / 5 + d - 1
  let doe := yoe * 365 + yoe / 4 - yoe / 100 + doy
  era * 146097 + doe - 719468

/-- Left-pad the decimal rendering of `n` with zeros to width `w`. -/
def padNat (w n : Nat) : String :=
  let s := toString n
  String.mk (List.replicate (w - s.length) '0') ++ s

/-- `datetime.isoformat()` for an aware UTC datetime:
`YYYY-MM-DDTHH:MM:SS[.ffffff]+00:00`. -/
def Datetime.isoformat (dt : Datetime) : String :=
  let days := Int.fdiv dt.us usPerDay
  let rem := (dt.us - days * usPerDay).toNat
  let ymd := civilFromDays days
  let sod := rem / 1000000
  let micro := rem % 1000000
  padNat 4 ymd.1.toNat ++ "-" ++ padNat 2 ymd.2.1.toNat ++ "-" ++
    padNat 2 ymd.2.2.toNat ++ "T" ++ padNat 2 (sod / 3600) ++ ":" ++
    padNat 2 ((sod / 60) % 60) ++ ":" ++ padNat 2 (sod % 60) ++
    (if micro = 0 then "" else "." ++ padNat 6 micro) ++ "+00:00"

/-! ### Timestamp parsing (`scheduler._parse_timestamp`) -/

/-- Read exactly `k` decimal digits, most significant first. -/
def readFixedNat : Nat → List Char → Nat → Option (Nat × List Char)
  | 0, cs, acc => some (acc, cs)
  | k + 1, c :: cs, acc =>
      if c.isDigit then readFixedNat k cs (acc * 10 + (c.toNat - 48)) else none
  | _ + 1, [], _ => none

/-- Expect one specific character. -/
def expectChar (c : Char) : List Char → Option (List Char)
  | x :: cs => if x = c then some cs else none
  | [] => none

/-- Read between 1 and 6 fractional-second digits, returning microseconds
(shorter runs are scaled up, as Python does for `%f` / ISO fractions). -/
def readFrac (cs : List Char) : Option (Nat × List Char) :=
  match cs with
  | c :: rest =>
      if c.isDigit then
        let step := fun (st : Nat × Nat × List Char) (_ : Nat) =>
          match st.2.2 with
          | d :: more =>
              if d.isDigit ∧ st.1 < 6 then (st.1 + 1, st.2.1 * 10 + (d.toNat - 48), more)
              else st
          | [] => st
        let fin := List.foldl step (1, c.toNat - 48, rest) (List.range 5)
        some (fin.2.1 * 10 ^ (6 - fin.1), fin.2.2)
      else none
  | [] => none

def isLeapYear (y : Int) : Bool :=
  y % 4 = 0 && (y % 100 ≠ 0 || y % 400 = 0)

def daysInMonth (y m : Int) : Int :=
  if m = 2 then (if isLeapYear y then 29 else 28)
  else if m = 4 ∨ m = 6 ∨ m = 9 ∨ m = 11 then 30
  else 31

/-- Validate a civil date-time and build the UTC instant. -/
def mkInstant (y mo d hh mi ss : Nat) (micro : Nat) (offMinutes : Int) :
    Option Datetime :=
  if 1 ≤ mo ∧ mo ≤ 12 ∧ 1 ≤ d ∧ (d : Int) ≤ daysInMonth y mo ∧
      hh ≤ 23 ∧ mi ≤ 59 ∧ ss ≤ 59 then
    some ⟨(daysFromCivil y mo d) * usPerDay +
      ((hh * 3600 + mi * 60 + ss : Nat) : Int) * usPerSecond + (micro : Int) -
      offMinutes * 60 * usPerSecond⟩
  else none

/-- Parse the optional `±HH:MM` UTC-offset suffix; `none` input chars mean
a naive datetime (modelled as UTC). Returns offset minutes. -/
def readOffset (cs : List Char) : Option Int :=
  match cs with
  | [] => some 0
  | sign :: rest =>
      if sign = '+' ∨ sign = '-' then
        match readFixedNat 2 rest 0 with
        | some (oh, rest1) =>
            match expectChar ':' rest1 with
            | some rest2 =>
                match readFixedNat 2 rest2 0 with
                | some (om, []) =>
                    let total : Int := (oh * 60 + om : Nat)
                    some (if sign = '-' then -total else total)
                | _ => none
            | none => none
        | none => none
      else none

/-- Model of `datetime.fromisoformat` on the grammar
`YYYY-MM-DD[(T| )HH:MM[:SS[.ffffff]]][±HH:MM]` (the portion of the ISO
grammar this scheduler can encounter). A string without an offset yields
a naive datetime in Python; it is modelled as the same UTC instant. -/
def fromisoformat (value : String) : Option Datetime :=
  match readFixedNat 4 value.data 0 with
  | none => none
  | some (y, cs0) =>
    match expectChar '-' cs0 with
    | none => none
    | some cs1 =>
      match readFixedNat 2 cs1 0 with
      | none => none
      | some (mo, cs2) =>
        match expectChar '-' cs2 with
        | none => none
        | some cs3 =>
          match readFixedNat 2 cs3 0 with
          | none => none
          | some (d, cs4) =>
            match cs4 with
            | [] => mkInstant y mo d 0 0 0 0 0
            | sep :: cs5 =>
              if sep = 'T' ∨ sep = ' ' then
                match readFixedNat 2 cs5 0 with
                | none => none
                | some (hh, cs6) =>
                  match expectChar ':' cs6 with
                  | none => none
                  | some cs7 =>
                    match readFixedNat 2 cs7 0 with
                    | none => none
                    | some (mi, cs8) =>
                      match expectChar ':' cs8 with
                      | none =>
                          match readOffset cs8 with
                          | some off => mkInstant y mo d hh mi 0 0 off
                          | none => none
                      | some cs9 =>
                        match readFixedNat 2 cs9 0 with
                        | none => none
                        | some (ss, cs10) =>
                          match cs10 with
                          | '.' :: cs11 =>
                              match readFrac cs11 with
                              | some (micro, cs12) =>
                                  match readOffset cs12 with
                                  | some off => mkInstant y mo d hh mi ss micro off
                                  | none => none
                              | none => none
                          | _ =>
                              match readOffset cs10 with
                              | some off => mkInstant y mo d hh mi ss 0 off
                              | none => none
              else none

/-- `str.strip()` on both ends (ASCII whitespace). -/
def stripChars (cs : List Char) : List Char :=
  ((cs.dropWhile Char.isWhitespace).reverse.dropWhile Char.isWhitespace).reverse

/-- `strptime` with format `%Y-%m-%dT%H:%M:%S.%f`, result made aware via
`replace(tzinfo=timezone.utc)`. -/
def strptimeTFrac (value : String) : Option Datetime :=
  match readFixedNat 4 value.data 0 with
  | none => none
  | some (y, cs0) =>
    match expectChar '-' cs0 >>= (readFixedNat 2 · 0) with
    | none => none
    | some (mo, cs1) =>
      match expectChar '-' cs1 >>= (readFixedNat 2 · 0) with
      | none => none
      | some (d, cs2) =>
        match expectChar 'T' cs2 >>= (readFixedNat 2 · 0) with
        | none => none
        | some (hh, cs3) =>
          match expectChar ':' cs3 >>= (readFixedNat 2 · 0) with
          | none => none
          | some (mi, cs4) =>
            match expectChar ':' cs4 >>= (readFixedNat 2 · 0) with
            | none => none
            | some (ss, cs5) =>
              match expectChar '.' cs5 >>= readFrac with
              | some (micro, []) => mkInstant y mo d hh mi ss micro 0
              | _ => none

/-- `strptime` with format `%Y-%m-%dT%H:%M:%S` (or with a space separator
when `sep = ' '`), result made aware via `replace(tzinfo=timezone.utc)`. -/
def strptimePlain (sep : Char) (value : String) : Option Datetime :=
  match readFixedNat 4 value.data 0 with
  | none => none
  | some (y, cs0) =>
    match expectChar '-' cs0 >>= (readFixedNat 2 · 0) with
    | none => none
    | some (mo, cs1) =>
      match expectChar '-' cs1 >>= (readFixedNat 2 · 0) with
      | none => none
      | some (d, cs2) =>
        match expectChar sep cs2 >>= (readFixedNat 2 · 0) with
        | none => none
        | some (hh, cs3) =>
          match expectChar ':' cs3 >>= (readFixedNat 2 · 0) with
          | none => none
          | some (mi, cs4) =>
            match expectChar ':' cs4 >>= (readFixedNat 2 · 0) with
            | some (ss, []) => mkInstant y mo d hh mi ss 0 0
            | _ => none

/-- `scheduler._parse_timestamp`: empty/whitespace input yields `none`;
a trailing `Z` is rewritten to `+00:00`; then `fromisoformat` is tried,
followed by the three `strptime` fallback formats; any failure degrades
to `none` (the `ValueError`s are caught in the source). -/
def parse_timestamp (raw : Option String) : Option Datetime :=
  match raw with
  | none => none
  | some raw =>
    if raw = "" then none
    else
      let cs := stripChars raw.data
      if cs = [] then none
      else
        let value :=
          if cs.getLast? = some 'Z' then
            String.mk (cs.dropLast ++ ['+', '0', '0', ':', '0', '0'])
          else String.mk cs
        match fromisoformat value with
        | some dt => some dt
        | none =>
            (strptimeTFrac value).orElse fun _ =>
              (strptimePlain 'T' value).orElse fun _ =>
                strptimePlain ' ' value

/-! ### Data model (`scheduler.VaultItem`, `config.RotationPolicy`) -/

/-- Metadata the scheduler cares about for a Vaultwarden cipher. -/
structure VaultItem where
  id : String
  name : String
  user_id : Option String
  collection_ids : List String
  revision_date : Datetime
  last_rotated_at : Option Datetime
deriving DecidableEq, Repr

/-- `self.last_rotated_at or self.revision_date` (datetimes are always
truthy, so `or` is exactly `Option.getD`). -/
def VaultItem.effective_rotation_source (item : VaultItem) : Datetime :=
  item.last_rotated_at.getD item.revision_date

/-- The fields of a raw cipher payload (`Dict[str, object]`) that the
scheduler reads.  `none` models an absent key (or a JSON null). -/
structure Payload where
  id : Option String
  name : Option String
  organizationId : Option String
  userId : Option String
  revisionDate : Option String
  passwordRotation : Option String
  lastPasswordRotation : Option String
  collectionId : Option String
  collectionIds : Option (List String)
deriving DecidableEq, Repr

/-- Python `str(x)` for an optional string: `str(None) = "None"`. -/
def strOfOpt (o : Option String) : String := o.getD "None"

/-- Python `a or b` chain over optional strings (empty string is falsy). -/
def orTruthy (a : Option String) (b : String) : String :=
  match a with
  | some s => if s = "" then b else s
  | none => b

/-- `VaultItem.from_api`.  `now` stands for the `datetime.now(timezone.utc)`
fallback taken when `revisionDate` fails to parse. -/
def VaultItem.from_api (payload : Payload) (now : Datetime) : VaultItem :=
  let cipher_id := strOfOpt payload.id
  let name := orTruthy payload.name (orTruthy payload.organizationId "Unnamed entry")
  let revision := (parse_timestamp (some (payload.revisionDate.getD ""))).getD now
  let last_rotated :=
    match parse_timestamp (some (strOfOpt payload.passwordRotation)) with
    | some dt => some dt
    | none => parse_timestamp (some (strOfOpt payload.lastPasswordRotation))
  let collection_ids :=
    match payload.collectionIds with
    | some multi => multi
    | none =>
        match payload.collectionId with
        | some cid => if cid = "" then [] else [cid]
        | none => []
  { id := cipher_id
    name := name
    user_id :=
      match payload.userId with
      | some u => if u = "" then none else some u
      | none => none
    collection_ids := collection_ids
    revision_date := revision
    last_rotated_at := last_rotated }

/-- `config.RotationPolicy`. -/
structure RotationPolicy where
  frequency_days : Int
  grace_period_days : Int := 0
  target_collections : Option (List String) := none
  target_users : Option (List String) := none
  send_digest : Bool := true
deriving DecidableEq, Repr

/-- `timedelta(days=self.frequency_days)` in microseconds. -/
def RotationPolicy.frequency_delta (p : RotationPolicy) : Int :=
  p.frequency_days * usPerDay

/-- `timedelta(days=self.grace_period_days)` in microseconds. -/
def RotationPolicy.grace_delta (p : RotationPolicy) : Int :=
  p.grace_period_days * usPerDay

/-- Represents an item that is due (or nearly due) for rotation. -/
structure RotationCandidate where
  item : VaultItem
  due_at : Datetime
deriving DecidableEq, Repr

/-! ### Candidate selection (`PasswordRotationScheduler._select_due_items`) -/

/-- `PasswordRotationScheduler._select_due_items`: the loop appends a
candidate for each item whose reminder point has been reached, so it is a
`filterMap` over the input order. -/
def select_due_items (policy : RotationPolicy) (now : Datetime)
    (items : List VaultItem) : List RotationCandidate :=
  let frequency := policy.frequency_delta
  let grace := policy.grace_delta
  let reminder_threshold := frequency - grace
  items.filterMap fun item =>
    let reference := item.effective_rotation_source
    let due_at := reference.add frequency
    if reference.add reminder_threshold ≤ now then
      some { item := item, due_at := due_at }
    else none

/-! ### Fingerprinting (`PasswordRotationScheduler._digest_has_changed`)

The fingerprint is `hashlib.sha256(json.dumps(payload, sort_keys=True)
.encode("utf-8")).hexdigest()` where `payload` is the list of
`{"id": c.item.id, "due": c.due_at.isoformat()}` dicts, in candidate-list
order.  SHA-256 is implemented below over `Nat` words reduced mod `2^32`;
the round constants are derived from the first primes exactly as in the
standard (fractional parts of cube/square roots), avoiding transcription
errors. -/

/-- `json.dumps` escaping of one character (`ensure_ascii=True` default). -/
def jsonEscapeChar (c : Char) : List Char :=
  if c = '"' then ['\\', '"']
  else if c = '\\' then ['\\', '\\']
  else if c = '\n' then ['\\', 'n']
  else if c = '\r' then ['\\', 'r']
  else if c = '\t' then ['\\', 't']
  else if c.toNat = 8 then ['\\', 'b']
  else if c.toNat = 12 then ['\\', 'f']
  else if c.toNat < 32 ∨ c.toNat > 126 then
    let hex := fun (n : Nat) =>
      if n < 10 then Char.ofNat (48 + n) else Char.ofNat (97 + (n - 10))
    if c.toNat < 65536 then
      ['\\', 'u', hex ((c.toNat / 4096) % 16), hex ((c.toNat / 256) % 16),
        hex ((c.toNat / 16) % 16), hex (c.toNat % 16)]
    else
      let v := c.toNat - 65536
      let hi := 55296 + v / 1024
      let lo := 56320 + v % 1024
      ['\\', 'u', hex ((hi / 4096) % 16), hex ((hi / 256) % 16),
        hex ((hi / 16) % 16), hex (hi % 16),
        '\\', 'u', hex ((lo / 4096) % 16), hex ((lo / 256) % 16),
        hex ((lo / 16) % 16), hex (lo % 16)]
  else [c]

/-- `json.dumps` of a string value. -/
def jsonString (s : String) : String :=
  String.mk ('"' :: (s.data.map jsonEscapeChar).flatten ++ ['"'])

/-- `json.dumps({"id": ..., "due": ...}, sort_keys=True)`: with sorted
keys, `"due"` precedes `"id"`; default separators are `", "`/`": "`. -/
def candJson (c : RotationCandidate) : String :=
  "\x7b\"due\": " ++ jsonString c.due_at.isoformat ++
    ", \"id\": " ++ jsonString c.item.id ++ "\x7d"

/-- `json.dumps(payload, sort_keys=True)` for the whole candidate list. -/
def digestPayloadJson (cands : List RotationCandidate) : String :=
  "[" ++ String.intercalate ", " (cands.map candJson) ++ "]"

/-- UTF-8 encoding of one character, as a list of byte values. -/
def utf8EncodeChar (c : Char) : List Nat :=
  let n := c.toNat
  if n < 128 then [n]
  else if n < 2048 then [192 + n / 64, 128 + n % 64]
  else if n < 65536 then
    [224 + n / 4096, 128 + (n / 64) % 64, 128 + n % 64]
  else
    [240 + n / 262144, 128 + (n / 4096) % 64, 128 + (n / 64) % 64, 128 + n % 64]

/-- `.encode("utf-8")` of a string, as a list of byte values. -/
def utf8Bytes (s : String) : List Nat :=
  (s.data.map utf8EncodeChar).flatten

def pow32 : Nat := 4294967296

def add32 (a b : Nat) : Nat := (a + b) % pow32

/-- Rotate a 32-bit word right by `n`. -/
def rotr32 (n x : Nat) : Nat := ((x >>> n) ||| (x <<< (32 - n))) % pow32

/-- Largest `x` with `x^3 ≤ n` (binary search with structural fuel). -/
def cbrtAux : Nat → Nat → Nat → Nat → Nat
  | 0, lo, _, _ => lo
  | fuel + 1, lo, hi, n =>
      if lo + 1 < hi then
        let mid := (lo + hi) / 2
        if mid * mid * mid ≤ n then cbrtAux fuel mid hi n
        else cbrtAux fuel lo mid n
      else lo

def cbrtFloor (n : Nat) : Nat := cbrtAux 200 0 (n + 2) n

/-- Largest `x` with `x^2 ≤ n` (binary search with structural fuel). -/
def sqrtAux : Nat → Nat → Nat → Nat → Nat
  | 0, lo, _, _ => lo
  | fuel + 1, lo, hi, n =>
      if lo + 1 < hi then
        let mid := (lo + hi) / 2
        if mid * mid ≤ n then sqrtAux fuel mid hi n
        else sqrtAux fuel lo mid n
      else lo

def sqrtFloor (n : Nat) : Nat := sqrtAux 200 0 (n + 2) n

/-- The first 64 primes, for the SHA-256 round constants. -/
def sha256Primes : List Nat :=
  [2, 3, 5, 7, 11, 13, 17, 19, 23, 29, 31, 37, 41, 43, 47, 53,
   59, 61, 67, 71, 73, 79, 83, 89, 97, 101, 103, 107, 109, 113, 127, 131,
   137, 139, 149, 151, 157, 163, 167, 173, 179, 181, 191, 193, 197, 199, 211, 223,
   227, 229, 233, 239, 241, 251, 257, 263, 269, 271, 277, 281, 283, 293, 307, 311]

/-- Round constants: first 32 bits of the fractional parts of the cube
roots of the first 64 primes. -/
def sha256K : List Nat :=
  sha256Primes.map fun p => cbrtFloor (p * 2 ^ 96) % pow32

/-- Initial hash value: first 32 bits of the fractional parts of the
square roots of the first 8 primes. -/
def sha256H0 : List Nat :=
  (sha256Primes.take 8).map fun p => sqrtFloor (p * 2 ^ 64) % pow32

/-- SHA-256 padding: `0x80`, zeros, then the 64-bit big-endian bit length. -/
def sha256Pad (msg : List Nat) : List Nat :=
  let len := msg.length
  let padLen := (120 - ((len + 1) % 64)) % 64
  let bitLen := len * 8
  msg ++ 128 :: List.replicate padLen 0 ++
    [56, 48, 40, 32, 24, 16, 8, 0].map fun k => (bitLen >>> k) % 256

/-- Pack bytes into big-endian 32-bit words (input length a multiple of 4). -/
def words32 : Nat → List Nat → List Nat
  | 0, _ => []
  | _ + 1, b0 :: b1 :: b2 :: b3 :: rest =>
      (((b0 * 256 + b1) * 256 + b2) * 256 + b3) :: words32 rest.length rest
  | _ + 1, _ => []

/-- Split a word list into 16-word blocks. -/
def blocks16 : Nat → List Nat → List (List Nat)
  | 0, _ => []
  | _ + 1, [] => []
  | fuel + 1, ws => ws.take 16 :: blocks16 fuel (ws.drop 16)

/-- Extend a 16-word block to the 64-word message schedule. -/
def sha256Schedule (ws : List Nat) : List Nat :=
  (List.range 48).foldl
    (fun w _ =>
      let i := w.length
      let g := fun (k : Nat) => w.getD (i - k) 0
      let s0 := (rotr32 7 (g 15)) ^^^ (rotr32 18 (g 15)) ^^^ ((g 15) >>> 3)
      let s1 := (rotr32 17 (g 2)) ^^^ (rotr32 19 (g 2)) ^^^ ((g 2) >>> 10)
      w ++ [(g 16 + s0 + g 7 + s1) % pow32])
    ws

/-- Working state of the compression function. -/
structure Sha256State where
  a : Nat
  b : Nat
  c : Nat
  d : Nat
  e : Nat
  f : Nat
  g : Nat
  h : Nat
deriving DecidableEq, Repr

def sha256Round (st : Sha256State) (kw : Nat × Nat) : Sha256State :=
  let S1 := (rotr32 6 st.e) ^^^ (rotr32 11 st.e) ^^^ (rotr32 25 st.e)
  let ch := (st.e &&& st.f) ^^^ ((st.e ^^^ (pow32 - 1)) &&& st.g)
  let t1 := (st.h + S1 + ch + kw.1 + kw.2) % pow32
  let S0 := (rotr32 2 st.a) ^^^ (rotr32 13 st.a) ^^^ (rotr32 22 st.a)
  let mj := (st.a &&& st.b) ^^^ (st.a &&& st.c) ^^^ (st.b &&& st.c)
  let t2 := (S0 + mj) % pow32
  { a := (t1 + t2) % pow32, b := st.a, c := st.b, d := st.c,
    e := (st.d + t1) % pow32, f := st.e, g := st.f, h := st.g }

def stateOfList (l : List Nat) : Sha256State :=
  { a := l.getD 0 0, b := l.getD 1 0, c := l.getD 2 0, d := l.getD 3 0,
    e := l.getD 4 0, f := l.getD 5 0, g := l.getD 6 0, h := l.getD 7 0 }

/-- The 64-round compression fold. -/
def sha256Compress (kws : List (Nat × Nat)) (st : Sha256State) : Sha256State :=
  kws.foldl sha256Round st

def sha256Block (hs : List Nat) (block : List Nat) : List Nat :=
  let w := sha256Schedule block
  let st := sha256Compress (sha256K.zip w) (stateOfList hs)
  [add32 (hs.getD 0 0) st.a, add32 (hs.getD 1 0) st.b,
   add32 (hs.getD 2 0) st.c, add32 (hs.getD 3 0) st.d,
   add32 (hs.getD 4 0) st.e, add32 (hs.getD 5 0) st.f,
   add32 (hs.getD 6 0) st.g, add32 (hs.getD 7 0) st.h]

def hexChar (n : Nat) : Char :=
  if n < 10 then Char.ofNat (48 + n) else Char.ofNat (97 + (n - 10))

def hex8 (w : Nat) : List Char :=
  [28, 24, 20, 16, 12, 8, 4, 0].map fun k => hexChar ((w >>> k) % 16)

/-- `hashlib.sha256(bytes).hexdigest()`. -/
def sha256Hexdigest (msg : List Nat) : String :=
  let padded := sha256Pad msg
  let ws := words32 padded.length padded
  let bs := blocks16 ws.length ws
  let final := bs.foldl sha256Block sha256H0
  String.mk (final.map hex8).flatten

/-- The Digest Tracker's fingerprint of a candidate list. -/
def fingerprint (cands : List RotationCandidate) : String :=
  sha256Hexdigest (utf8Bytes (digestPayloadJson cands))

/-! ### Digest state (`ROTATION_STATE_FILE` contents) -/

/-- The digest state file observed by `_digest_has_changed`:
`missing` — `path.exists()` is false; `corrupt` — the file exists but
reading/JSON-decoding raises (the `except` branch sets `prev = None`);
`hash h` — the file holds `json.dumps({"last_hash": h})`, read back as
`h`. -/
inductive StoredState where
  | missing
  | corrupt
  | hash (h : String)
deriving DecidableEq, Repr

/-- The `prev` value obtained by the read in `_digest_has_changed`. -/
def StoredState.read : StoredState → Option String
  | .missing => none
  | .corrupt => none
  | .hash h => some h

/-- `PasswordRotationScheduler._digest_has_changed` as a state
transformer.  `writeOk = false` models `path.write_text` raising (the
exception is swallowed, leaving the file as it was).  Returns the boolean
result and the state file after the call. -/
def digest_has_changed (cands : List RotationCandidate) (st : StoredState)
    (writeOk : Bool) : Bool × StoredState :=
  let digest := fingerprint cands
  let prev := st.read
  if prev = some digest then (false, st)
  else (true, if writeOk then StoredState.hash digest else st)

/-! ### Dispatch (`PasswordRotationScheduler._dispatch_notifications`) -/

/-- `os.getenv("ROTATION_SNS_DIGEST", "1").lower() in {"1", "true",
"yes", "on"}`; the argument is the environment variable's value. -/
def asciiLower (s : String) : String :=
  String.mk (s.data.map fun c =>
    if 65 ≤ c.toNat ∧ c.toNat ≤ 90 then Char.ofNat (c.toNat + 32) else c)

def digestEnabled (env : Option String) : Bool :=
  ["1", "true", "yes", "on"].contains (asciiLower (env.getD "1"))

/-- One `notifier.send_rotation_notice(recipient, items, policy_summary)`
call. -/
structure Notification where
  recipient : String
  items : List RotationCandidate
  summary : String
deriving DecidableEq, Repr

/-- `PasswordRotationScheduler.build_policy_summary`. -/
def build_policy_summary (policy : RotationPolicy) : String :=
  let parts := ["frequency " ++ toString policy.frequency_days ++ "d"] ++
    (if policy.grace_period_days ≠ 0 then
      ["grace " ++ toString policy.grace_period_days ++ "d"] else []) ++
    (match policy.target_collections with
     | some l => if l.isEmpty then [] else ["collections " ++ toString l.length]
     | none => []) ++
    (match policy.target_users with
     | some l => if l.isEmpty then [] else ["users " ++ toString l.length]
     | none => [])
  String.intercalate ", " parts

/-- `grouped.setdefault(email, []).append(candidate)`: append to the
entry with this key, or add a new key at the end (Python dicts preserve
insertion order). -/
def addToGroup : List (String × List RotationCandidate) → String →
    RotationCandidate → List (String × List RotationCandidate)
  | [], e, c => [(e, [c])]
  | (e', g) :: rest, e, c =>
      if e' = e then (e', g ++ [c]) :: rest
      else (e', g) :: addToGroup rest e c

/-- The grouping loop of the per-recipient branch: `if not email:
continue` skips falsy emails, i.e. both an unresolved recipient (`None`)
and an empty-string address. -/
def groupStep (resolver : VaultItem → Option String)
    (acc : List (String × List RotationCandidate)) (c : RotationCandidate) :
    List (String × List RotationCandidate) :=
  match resolver c.item with
  | some email => if email = "" then acc else addToGroup acc email c
  | none => acc

def groupByRecipient (resolver : VaultItem → Option String)
    (cands : List RotationCandidate) : List (String × List RotationCandidate) :=
  cands.foldl (groupStep resolver) []

/-- `PasswordRotationScheduler._dispatch_notifications`.
`digestEnv` models `os.getenv("ROTATION_SNS_DIGEST")`; `resolver` models
`self._user_email_resolver`; `st`/`writeOk` model the digest state file.
Returns the list of `send_rotation_notice` calls made (in order) and the
digest state afterwards. -/
def dispatch_notifications (digestEnv : Option String)
    (policy : RotationPolicy) (resolver : VaultItem → Option String)
    (cands : List RotationCandidate) (st : StoredState) (writeOk : Bool) :
    List Notification × StoredState :=
  if cands.isEmpty then ([], st)
  else if digestEnabled digestEnv then
    let r := digest_has_changed cands st writeOk
    if r.1 then
      ([⟨"all", cands, build_policy_summary policy⟩], r.2)
    else ([], r.2)
  else
    let grouped := groupByRecipient resolver cands
    if grouped.isEmpty then ([], st)
    else
      (grouped.map fun g => ⟨g.1, g.2, build_policy_summary policy⟩, st)

/-! ### Targeting filters (`client.CipherSelection`) -/

/-- `CipherSelection.filter_collections`: keep a cipher when its scalar
`collectionId` is truthy and allowed, or any entry of its `collectionIds`
list is allowed. -/
def filter_collections (collection_ids : List String)
    (items : List Payload) : List Payload :=
  items.filter fun cipher =>
    (match cipher.collectionId with
     | some cid => !(cid = "") && collection_ids.contains cid
     | none => false) ||
    (match cipher.collectionIds with
     | some multi => multi.any fun m => collection_ids.contains m
     | none => false)

/-- `CipherSelection.filter_users`. -/
def filter_users (user_ids : List String) (items : List Payload) :
    List Payload :=
  items.filter fun cipher =>
    match cipher.userId with
    | some u => user_ids.contains u
    | none => false

/-- Truthiness of an optional sequence (`if self._policy.target_users:`).-/
def truthySeq : Option (List String) → Bool
  | some l => !l.isEmpty
  | none => false

/-! ### One evaluation cycle (`PasswordRotationScheduler.run_once`) -/

/-- The filtering/normalization/selection pipeline of `run_once`
(everything before the dispatch decision).  `now` doubles as the
normalization fallback clock and the `now_factory()` instant (both are
`datetime.now(timezone.utc)` in the default configuration). -/
def run_once_candidates (policy : RotationPolicy) (ciphers : List Payload)
    (now : Datetime) : List RotationCandidate :=
  let sel1 :=
    if truthySeq policy.target_collections then
      filter_collections (policy.target_collections.getD []) ciphers
    else ciphers
  let sel2 :=
    if truthySeq policy.target_users then
      filter_users (policy.target_users.getD []) sel1
    else sel1
  let items := sel2.map (fun payload => VaultItem.from_api payload now)
  select_due_items policy now items

/-- `run_once`: filter, normalize, select, and (when requested and the
candidate list is non-empty) dispatch.  `ciphers` models the
`client.list_ciphers()` result.  Returns
(candidates, notifier calls, digest state after the run). -/
def run_once (digestEnv : Option String) (policy : RotationPolicy)
    (resolver : VaultItem → Option String) (ciphers : List Payload)
    (now : Datetime) (st : StoredState) (writeOk : Bool)
    (send_notifications : Bool) :
    List RotationCandidate × List Notification × StoredState :=
  let candidates := run_once_candidates policy ciphers now
  if send_notifications && !candidates.isEmpty then
    let r := dispatch_notifications digestEnv policy resolver candidates st writeOk
    (candidates, r.1, r.2)
  else (candidates, [], st)

/-! ### Notification labels (`notification.AWSSNSNotifier`) -/

/-- `AWSSNSNotifier._looks_encrypted`. -/
def looks_encrypted (s : String) : Bool :=
  if s = "" then false
  else (s.data.contains '|' && s.data.contains '.') || s.length > 60

/-- `AWSSNSNotifier._type_label`: `VaultItem` has no `cipher_type`
attribute, so `getattr(..., "cipher_type", None)` is always `None` and
the lookup falls back to the generic label. -/
def type_label (_ : RotationCandidate) : String := "Item"

/-- The `name = getattr(candidate.item, "name", "") or "(Unnamed)"` step
of `_label_for`: an empty (falsy) name is replaced by `"(Unnamed)"`. -/
def displayed_name (candidate : RotationCandidate) : String :=
  if candidate.item.name = "" then "(Unnamed)" else candidate.item.name

/-- `AWSSNSNotifier._label_for`. -/
def label_for (candidate : RotationCandidate) : String :=
  let name := displayed_name candidate
  if looks_encrypted name then
    let short_id :=
      if String.mk (candidate.item.id.data.take 8) = "" then "unknown"
      else String.mk (candidate.item.id.data.take 8)
    "(" ++ type_label candidate ++ ") ID:" ++ short_id
  else name

/-! ### Grouping lemmas (per-recipient dispatch) -/

/-- First-match lookup in the grouped assoc list. -/
def findGroup (e : String) :
    List (String × List RotationCandidate) → Option (List RotationCandidate)
  | [] => none
  | (k, g) :: rest => if k = e then some g else findGroup e rest

/-- The candidates of `cands` whose recipient resolves to `e`. -/
def filterFor (resolver : VaultItem → Option String) (e : String)
    (cands : List RotationCandidate) : List RotationCandidate :=
  cands.filter fun c => decide (resolver c.item = some e)

lemma findGroup_addToGroup (acc : List (String × List RotationCandidate))
    (k e : String) (c : RotationCandidate) :
    findGroup e (addToGroup acc k c) =
      if k = e then
        (match findGroup e acc with
         | some g => some (g ++ [c])
         | none => some [c])
      else findGroup e acc := by
  induction acc with
  | nil =>
      by_cases h : k = e <;> simp [addToGroup, findGroup, h]
  | cons p rest ih =>
      obtain ⟨k', g'⟩ := p
      by_cases h1 : k' = k
      · subst h1
        by_cases h2 : k' = e <;> simp [addToGroup, findGroup, h2]
      · by_cases h2 : k' = e
        · subst h2
          have hk : ¬k = k' := fun h => h1 h.symm
          simp [addToGroup, findGroup, h1, hk]
        · simp [addToGroup, findGroup, h1, h2, ih]

lemma findGroup_foldl (resolver : VaultItem → Option String) (e : String)
    (he : e ≠ "") (cands : List RotationCandidate)
    (acc : List (String × List RotationCandidate)) :
    findGroup e (cands.foldl (groupStep resolver) acc) =
      match findGroup e acc with
      | some g => some (g ++ filterFor resolver e cands)
      | none =>
          if filterFor resolver e cands = [] then none
          else some (filterFor resolver e cands) := by
  induction cands generalizing acc with
  | nil =>
      cases h : findGroup e acc <;> simp [filterFor, h]
  | cons c cs ih =>
      simp only [List.foldl_cons]
      rw [ih]
      cases hr : resolver c.item with
      | none =>
          have hstep : groupStep resolver acc c = acc := by
            simp [groupStep, hr]
          have hf : filterFor resolver e (c :: cs) = filterFor resolver e cs := by
            simp [filterFor, List.filter_cons, hr]
          rw [hstep, hf]
      | some k =>
          by_cases hk0 : k = ""
          · subst hk0
            have hstep : groupStep resolver acc c = acc := by
              simp [groupStep, hr]
            have hf : filterFor resolver e (c :: cs) =
                filterFor resolver e cs := by
              have hne : ¬resolver c.item = some e := by
                rw [hr]
                exact fun h => he (Option.some.inj h).symm
              simp [filterFor, List.filter_cons, hne]
            rw [hstep, hf]
          · have hstep : groupStep resolver acc c = addToGroup acc k c := by
              simp [groupStep, hr, hk0]
            rw [hstep, findGroup_addToGroup]
            by_cases hk : k = e
            · subst hk
              have hf : filterFor resolver k (c :: cs) =
                  c :: filterFor resolver k cs := by
                simp [filterFor, List.filter_cons, hr]
              rw [hf]
              cases h : findGroup k acc <;> simp
            · have hf : filterFor resolver e (c :: cs) =
                  filterFor resolver e cs := by
                have hne : ¬resolver c.item = some e := by
                  rw [hr]; exact fun h => hk (Option.some.inj h)
                simp [filterFor, List.filter_cons, hne]
              rw [if_neg hk, hf]

lemma findGroup_groupByRecipient (resolver : VaultItem → Option String)
    (cands : List RotationCandidate) (e : String) (he : e ≠ "") :
    findGroup e (groupByRecipient resolver cands) =
      if filterFor resolver e cands = [] then none
      else some (filterFor resolver e cands) := by
  have h := findGroup_foldl resolver e he cands []
  simpa [groupByRecipient, findGroup] using h

lemma keys_addToGroup (acc : List (String × List RotationCandidate))
    (k : String) (c : RotationCandidate) :
    (addToGroup acc k c).map Prod.fst =
      if k ∈ acc.map Prod.fst then acc.map Prod.fst
      else acc.map Prod.fst ++ [k] := by
  induction acc with
  | nil => simp [addToGroup]
  | cons p rest ih =>
      obtain ⟨k', g'⟩ := p
      by_cases h : k' = k
      · subst h
        simp [addToGroup]
      · have hne : ¬k = k' := fun hkk => h hkk.symm
        by_cases hm : k ∈ rest.map Prod.fst
        · simp [addToGroup, h, ih, hm, hne]
        · simp [addToGroup, h, ih, hm, hne]

lemma keys_nodup_groupStep (resolver : VaultItem → Option String)
    (acc : List (String × List RotationCandidate)) (c : RotationCandidate)
    (h : (acc.map Prod.fst).Nodup) :
    ((groupStep resolver acc c).map Prod.fst).Nodup := by
  cases hr : resolver c.item with
  | none => simpa [groupStep, hr] using h
  | some k =>
      by_cases hk0 : k = ""
      · simpa [groupStep, hr, hk0] using h
      · simp only [groupStep, hr, if_neg hk0]
        rw [keys_addToGroup]
        split
        · exact h
        · next hmem =>
            rw [List.nodup_append]
            refine ⟨h, List.nodup_singleton k, ?_⟩
            intro a ha hak
            rw [List.mem_singleton] at hak
            exact hmem (hak ▸ ha)

lemma keys_nodup_groupByRecipient (resolver : VaultItem → Option String)
    (cands : List RotationCandidate) :
    ((groupByRecipient resolver cands).map Prod.fst).Nodup := by
  have main : ∀ (l : List RotationCandidate)
      (acc : List (String × List RotationCandidate)),
      (acc.map Prod.fst).Nodup →
      ((l.foldl (groupStep resolver) acc).map Prod.fst).Nodup := by
    intro l
    induction l with
    | nil => intro acc h; simpa using h
    | cons c cs ih =>
        intro acc h
        exact ih _ (keys_nodup_groupStep resolver acc c h)
  simpa [groupByRecipient] using main cands [] (by simp)

lemma findGroup_of_mem (gs : List (String × List RotationCandidate))
    (hn : (gs.map Prod.fst).Nodup) (k : String)
    (g : List RotationCandidate) (hmem : (k, g) ∈ gs) :
    findGroup k gs = some g := by
  induction gs with
  | nil => cases hmem
  | cons p rest ih =>
      obtain ⟨k', g'⟩ := p
      rcases List.mem_cons.mp hmem with heq | htail
      · cases heq
        simp [findGroup]
      · simp only [List.map_cons, List.nodup_cons] at hn
        by_cases hk : k' = k
        · subst hk
          exact absurd (List.mem_map.mpr ⟨(k', g), htail, rfl⟩) hn.1
        · simp only [findGroup, if_neg hk]
          exact ih hn.2 htail

/-! ### Dispatch branch shapes -/

lemma dispatch_notifications_digest (digestEnv : Option String)
    (policy : RotationPolicy) (resolver : VaultItem → Option String)
    (cands : List RotationCandidate) (st : StoredState) (writeOk : Bool)
    (henv : digestEnabled digestEnv = true) (hne : cands ≠ []) :
    dispatch_notifications digestEnv policy resolver cands st writeOk =
      (if (digest_has_changed cands st writeOk).1 then
        [⟨"all", cands, build_policy_summary policy⟩] else [],
       (digest_has_changed cands st writeOk).2) := by
  have hempty : cands.isEmpty = false := by
    cases cands
    · exact absurd rfl hne
    · rfl
  simp only [dispatch_notifications, hempty, henv, Bool.false_eq_true,
    if_false, if_true]
  split <;> rename_i h <;> simp [h]

lemma dispatch_notifications_grouped (digestEnv : Option String)
    (policy : RotationPolicy) (resolver : VaultItem → Option String)
    (cands : List RotationCandidate) (st : StoredState) (writeOk : Bool)
    (henv : digestEnabled digestEnv = false) (hne : cands ≠ []) :
    dispatch_notifications digestEnv policy resolver cands st writeOk =
      (if (groupByRecipient resolver cands).isEmpty then []
       else (groupByRecipient resolver cands).map fun g =>
         ⟨g.1, g.2, build_policy_summary policy⟩,
       st) := by
  have hempty : cands.isEmpty = false := by
    cases cands
    · exact absurd rfl hne
    · rfl
  simp only [dispatch_notifications, hempty, henv, Bool.false_eq_true,
    if_false, if_true]
  split <;> rename_i h <;> simp [h]

/-! ### Concrete fingerprint evaluation for the order-dependence check

Kernel evaluation of a whole SHA-256 run in one step is too deep for the
elaborator, so the computation is staged: the round constants and message
schedules are first settled against literal lists, then the compression is
evaluated sixteen rounds at a time, each step by `decide`, and the pieces
are glued with `sha256Compress_split`.  `cexA`/`cexB` are two concrete
candidates differing only in the item id. -/

def cexItem (i : String) : VaultItem :=
  { id := i, name := i, user_id := none, collection_ids := [],
    revision_date := ⟨0⟩, last_rotated_at := none }

def cexA : RotationCandidate := { item := cexItem "a", due_at := ⟨0⟩ }

def cexB : RotationCandidate := { item := cexItem "b", due_at := ⟨0⟩ }

lemma sha256Compress_split (n : Nat) (kws : List (Nat × Nat))
    (st : Sha256State) :
    sha256Compress kws st =
      sha256Compress (kws.drop n) (sha256Compress (kws.take n) st) := by
  conv_lhs => rw [← List.take_append_drop n kws]
  simp only [sha256Compress, List.foldl_append]

def sha256KLit : List Nat :=
  [1116352408, 1899447441, 3049323471, 3921009573, 961987163, 1508970993,
   2453635748, 2870763221, 3624381080, 310598401, 607225278, 1426881987,
   1925078388, 2162078206, 2614888103, 3248222580, 3835390401, 4022224774,
   264347078, 604807628, 770255983, 1249150122, 1555081692, 1996064986,
   2554220882, 2821834349, 2952996808, 3210313671, 3336571891, 3584528711,
   113926993, 338241895, 666307205, 773529912, 1294757372, 1396182291,
   1695183700, 1986661051, 2177026350, 2456956037, 2730485921, 2820302411,
   3259730800, 3345764771, 3516065817, 3600352804, 4094571909, 275423344,
   430227734, 506948616, 659060556, 883997877, 958139571, 1322822218,
   1537002063, 1747873779, 1955562222, 2024104815, 2227730452, 2361852424,
   2428436474, 2756734187, 3204031479, 3329325298]

set_option maxRecDepth 4000 in
lemma sha256K_eval : sha256K = sha256KLit := by decide

def blkA1 : List Nat :=
  [1534796388, 1969562170, 539111737, 925904176, 825045041, 1412444218,
   808466992, 808136752, 976236578, 740303465, 1679964704, 576791165,
   740326178, 1685415202, 975184433, 959918125]

def wLitA1 : List Nat :=
  [1534796388, 1969562170, 539111737, 925904176, 825045041, 1412444218,
   808466992, 808136752, 976236578, 740303465, 1679964704, 576791165,
   740326178, 1685415202, 975184433, 959918125, 3484707459, 1370430744,
   1751789340, 4174881188, 1513827441, 471045186, 124825434, 130600201,
   2909600696, 3597843691, 4128350844, 3851296992, 1049579641, 2918657284,
   361025700, 1584857307, 2520496806, 1715250288, 3063729266, 554035301,
   1786238663, 436555815, 2570993534, 4197442720, 1316534231, 733715863,
   3109895421, 791433472, 1778908657, 1754520765, 2387978375, 4094008333,
   3900698640, 1576416515, 2692059867, 3715133190, 1739051769, 1148845977,
   1209528372, 763665799, 2126734390, 1292875384, 2269889964, 3583851400,
   3383756113, 1612964344, 544652725, 3229577517]

set_option maxRecDepth 4000 in
lemma schedule_A1 : sha256Schedule blkA1 = wLitA1 := by decide

def blkA2 : List Nat :=
  [808529200, 827600944, 976236602, 808463152, 809119792, 573317154,
   1768170042, 539124258, 2103279616, 0, 0, 0, 0, 0, 0, 784]

def wLitA2 : List Nat :=
  [808529200, 827600944, 976236602, 808463152, 809119792, 573317154,
   1768170042, 539124258, 2103279616, 0, 0, 0, 0, 0, 0, 784, 2591379299,
   2994411803, 3042294941, 169712460, 3795041902, 308935079, 3941779330,
   3989616355, 1793338801, 2196550927, 2643573873, 2923055220, 4227568316,
   1477579722, 3385316269, 1041316415, 408988208, 1296843727, 2741806847,
   3720344164, 869202311, 2363912107, 3302916771, 1695942363, 1803603524,
   2308860744, 1757945192, 1562390509, 2972057147, 3847023439, 2802224392,
   3694802882, 3234619365, 3587654039, 3546347803, 2385634384, 1512444619,
   36271040, 2820751307, 1940976769, 344034574, 2623433115, 3372416341,
   3488089448, 2385677573, 914728092, 1166606750, 468542779]

set_option maxRecDepth 4000 in
lemma schedule_A2 : sha256Schedule blkA2 = wLitA2 := by decide

def blkB1 : List Nat :=
  [1534796388, 1969562170, 539111737, 925904176, 825045041, 1412444218,
   808466992, 808136752, 976236578, 740303465, 1679964704, 576856701,
   740326178, 1685415202, 975184433, 959918125]

def wLitB1 : List Nat :=
  [1534796388, 1969562170, 539111737, 925904176, 825045041, 1412444218,
   808466992, 808136752, 976236578, 740303465, 1679964704, 576856701,
   740326178, 1685415202, 975184433, 959918125, 3484707459, 1370430744,
   1751854876, 4174881188, 4198182065, 471045186, 130085722, 130600201,
   3538751327, 3597909227, 4194454719, 630137056, 3375985065, 1314379972,
   1780238665, 676761867, 1368387775, 3833264131, 1389942344, 2632519834,
   490171675, 3100255157, 2901798676, 2500503306, 604269433, 606708046,
   1552484399, 1043175820, 2658157617, 151766729, 3774416464, 1893210478,
   3202037789, 4294410358, 4004226388, 1514010340, 3238277712, 645779498,
   1802118941, 2450945124, 1813159073, 512985517, 1317111240, 387245031,
   431870050, 1582007598, 2582366842, 1907485409]

set_option maxRecDepth 4000 in
lemma schedule_B1 : sha256Schedule blkB1 = wLitB1 := by decide

def blkB2 : List Nat :=
  [808529200, 827600944, 976236602, 808463152, 809119792, 573317154,
   1768170042, 539124002, 2103279616, 0, 0, 0, 0, 0, 0, 784]

def wLitB2 : List Nat :=
  [808529200, 827600944, 976236602, 808463152, 809119792, 573317154,
   1768170042, 539124002, 2103279616, 0, 0, 0, 0, 0, 0, 784, 2591379299,
   2994411803, 3042294941, 169712460, 3795041902, 308935079, 3929196520,
   3989616099, 1795980809, 2177676559, 3137140548, 2923037280, 4157501123,
   730502210, 152382668, 189978905, 934100708, 3893162643, 2612510785,
   388447367, 1473023594, 314429225, 3280873441, 2217002815, 1288673939,
   3168336560, 1680887721, 1791933833, 1559993787, 1250653497, 3488787285,
   2909770431, 4226767349, 3887246495, 309109574, 1976916712, 2346703562,
   989029332, 3848261218, 660014983, 2610250430, 2149871836, 2485270258,
   1196213519, 2616933526, 1121427417, 2141313362, 2818792905]

set_option maxRecDepth 4000 in
lemma schedule_B2 : sha256Schedule blkB2 = wLitB2 := by decide

def hsA1 : List Nat := [2684682438, 1043963956, 3768402802, 4247482599, 677925660, 901546566,
   2900672419, 2048114707]

def hsB1 : List Nat := [1679366226, 2100792775, 1756542617, 3591371575, 494631082, 2665953050,
   3479394416, 158111358]

set_option maxRecDepth 8000 in
set_option maxHeartbeats 1000000 in
lemma sha256Block_A1 : sha256Block sha256H0 blkA1 = hsA1 := by
  have h1 : sha256Compress ((sha256KLit.zip wLitA1).take 16) (stateOfList sha256H0) =
      ⟨2547614354, 2824581937, 2255262486, 1110394720, 2265942893, 937400320, 1195723716, 345696500⟩ := by decide
  have h2 : sha256Compress (((sha256KLit.zip wLitA1).drop 16).take 16)
      (⟨2547614354, 2824581937, 2255262486, 1110394720, 2265942893, 937400320, 1195723716, 345696500⟩ : Sha256State) = ⟨2014588721, 3617267190, 2549364805, 183285424, 1182854836, 1941365650, 3305798219, 1928555513⟩ := by decide
  have h3 : sha256Compress ((((sha256KLit.zip wLitA1).drop 16).drop 16).take 16)
      (⟨2014588721, 3617267190, 2549364805, 183285424, 1182854836, 1941365650, 3305798219, 1928555513⟩ : Sha256State) = ⟨1497929938, 3628306042, 1877707185, 394602671, 2912624039, 1028074294, 1233648235, 2770683256⟩ := by decide
  have h4 : sha256Compress ((((sha256KLit.zip wLitA1).drop 16).drop 16).drop 16)
      (⟨1497929938, 3628306042, 1877707185, 394602671, 2912624039, 1028074294, 1233648235, 2770683256⟩ : Sha256State) = ⟨905648735, 2194796975, 2754498560, 1474001837, 3612999837, 2595690938, 2371937784, 506655482⟩ := by decide
  simp only [sha256Block]
  rw [schedule_A1, sha256K_eval,
    sha256Compress_split 16 (sha256KLit.zip wLitA1) (stateOfList sha256H0), h1,
    sha256Compress_split 16 ((sha256KLit.zip wLitA1).drop 16) _, h2,
    sha256Compress_split 16 (((sha256KLit.zip wLitA1).drop 16).drop 16) _, h3, h4]
  decide

set_option maxRecDepth 8000 in
set_option maxHeartbeats 1000000 in
lemma sha256Block_A2 : sha256Block hsA1 blkA2 = [1338446948, 3627009910, 1259371394, 2325196365, 1607687172, 4287896338,
   2165031543, 2997509153] := by
  have h1 : sha256Compress ((sha256KLit.zip wLitA2).take 16) (stateOfList hsA1) =
      ⟨1179374706, 3494195717, 3128793523, 4015020534, 559270917, 3173188894, 2019429372, 4028699854⟩ := by decide
  have h2 : sha256Compress (((sha256KLit.zip wLitA2).drop 16).take 16)
      (⟨1179374706, 3494195717, 3128793523, 4015020534, 559270917, 3173188894, 2019429372, 4028699854⟩ : Sha256State) = ⟨1379583997, 1772175011, 730563802, 3696390240, 537035936, 3687788298, 2716407153, 2066493122⟩ := by decide
  have h3 : sha256Compress ((((sha256KLit.zip wLitA2).drop 16).drop 16).take 16)
      (⟨1379583997, 1772175011, 730563802, 3696390240, 537035936, 3687788298, 2716407153, 2066493122⟩ : Sha256State) = ⟨361652350, 1977031265, 2419595524, 403398920, 746524344, 1387332398, 2729196133, 599390794⟩ := by decide
  have h4 : sha256Compress ((((sha256KLit.zip wLitA2).drop 16).drop 16).drop 16)
      (⟨361652350, 1977031265, 2419595524, 403398920, 746524344, 1387332398, 2729196133, 599390794⟩ : Sha256State) = ⟨2948731806, 2583045954, 1785935888, 2372681062, 929761512, 3386349772, 3559326420, 949394446⟩ := by decide
  simp only [sha256Block]
  rw [schedule_A2, sha256K_eval,
    sha256Compress_split 16 (sha256KLit.zip wLitA2) (stateOfList hsA1), h1,
    sha256Compress_split 16 ((sha256KLit.zip wLitA2).drop 16) _, h2,
    sha256Compress_split 16 (((sha256KLit.zip wLitA2).drop 16).drop 16) _, h3, h4]
  decide

set_option maxRecDepth 8000 in
set_option maxHeartbeats 1000000 in
lemma sha256Block_B1 : sha256Block sha256H0 blkB1 = hsB1 := by
  have h1 : sha256Compress ((sha256KLit.zip wLitB1).take 16) (stateOfList sha256H0) =
      ⟨1544971038, 3422391968, 1097803266, 1303413608, 1867719246, 2189555251, 3275831282, 337306900⟩ := by decide
  have h2 : sha256Compress (((sha256KLit.zip wLitB1).drop 16).take 16)
      (⟨1544971038, 3422391968, 1097803266, 1303413608, 1867719246, 2189555251, 3275831282, 337306900⟩ : Sha256State) = ⟨3352735959, 1938023303, 2994635187, 3153279142, 960152107, 1612915660, 1016621939, 4014859867⟩ := by decide
  have h3 : sha256Compress ((((sha256KLit.zip wLitB1).drop 16).drop 16).take 16)
      (⟨3352735959, 1938023303, 2994635187, 3153279142, 960152107, 1612915660, 1016621939, 4014859867⟩ : Sha256State) = ⟨46094705, 1493923608, 2342212906, 1051424308, 1971510951, 3120514843, 1042788205, 3692227892⟩ := by decide
  have h4 : sha256Compress ((((sha256KLit.zip wLitB1).drop 16).drop 16).drop 16)
      (⟨46094705, 1493923608, 2342212906, 1051424308, 1971510951, 3120514843, 1042788205, 3692227892⟩ : Sha256State) = ⟨4195299819, 3251625794, 742638375, 817890813, 3429705259, 65130126, 2950659781, 2911619429⟩ := by decide
  simp only [sha256Block]
  rw [schedule_B1, sha256K_eval,
    sha256Compress_split 16 (sha256KLit.zip wLitB1) (stateOfList sha256H0), h1,
    sha256Compress_split 16 ((sha256KLit.zip wLitB1).drop 16) _, h2,
    sha256Compress_split 16 (((sha256KLit.zip wLitB1).drop 16).drop 16) _, h3, h4]
  decide

set_option maxRecDepth 8000 in
set_option maxHeartbeats 1000000 in
lemma sha256Block_B2 : sha256Block hsB1 blkB2 = [910287562, 3320692516, 1296801598, 3870912743, 2716727755, 3648995407,
   235659904, 1076695378] := by
  have h1 : sha256Compress ((sha256KLit.zip wLitB2).take 16) (stateOfList hsB1) =
      ⟨2201670423, 1470368863, 1105811682, 1672205174, 3237376891, 2742444425, 3454960434, 3481351936⟩ := by decide
  have h2 : sha256Compress (((sha256KLit.zip wLitB2).drop 16).take 16)
      (⟨2201670423, 1470368863, 1105811682, 1672205174, 3237376891, 2742444425, 3454960434, 3481351936⟩ : Sha256State) = ⟨1347273946, 3266869139, 4011960646, 1762735835, 1464678275, 3915981753, 1432708626, 326102058⟩ := by decide
  have h3 : sha256Compress ((((sha256KLit.zip wLitB2).drop 16).drop 16).take 16)
      (⟨1347273946, 3266869139, 4011960646, 1762735835, 1464678275, 3915981753, 1432708626, 326102058⟩ : Sha256State) = ⟨3847972030, 1162732320, 1607409, 905452491, 2241198047, 1921886103, 3272533590, 159686458⟩ := by decide
  have h4 : sha256Compress ((((sha256KLit.zip wLitB2).drop 16).drop 16).drop 16)
      (⟨3847972030, 1162732320, 1607409, 905452491, 2241198047, 1921886103, 3272533590, 159686458⟩ : Sha256State) = ⟨3525888632, 1219899741, 3835226277, 279541168, 2222096673, 983042357, 1051232784, 918584020⟩ := by decide
  simp only [sha256Block]
  rw [schedule_B2, sha256K_eval,
    sha256Compress_split 16 (sha256KLit.zip wLitB2) (stateOfList hsB1), h1,
    sha256Compress_split 16 ((sha256KLit.zip wLitB2).drop 16) _, h2,
    sha256Compress_split 16 (((sha256KLit.zip wLitB2).drop 16).drop 16) _, h3, h4]
  decide

set_option maxRecDepth 8000 in
set_option maxHeartbeats 1000000 in
lemma fingerprint_cexA : fingerprint [cexA, cexB] = "4fc71464d82fc7764b107b828a97ae4d5fd35c04ff941b12810bc277b2aa5c21" := by
  have hb : blocks16
      (words32 (sha256Pad (utf8Bytes (digestPayloadJson [cexA, cexB]))).length
        (sha256Pad (utf8Bytes (digestPayloadJson [cexA, cexB])))).length
      (words32 (sha256Pad (utf8Bytes (digestPayloadJson [cexA, cexB]))).length
        (sha256Pad (utf8Bytes (digestPayloadJson [cexA, cexB])))) = [blkA1, blkA2] := by
    decide
  have hf : List.foldl sha256Block sha256H0 [blkA1, blkA2] =
      sha256Block (sha256Block sha256H0 blkA1) blkA2 := rfl
  simp only [fingerprint, sha256Hexdigest]
  rw [hb, hf, sha256Block_A1, sha256Block_A2]
  decide

set_option maxRecDepth 8000 in
set_option maxHeartbeats 1000000 in
lemma fingerprint_cexB : fingerprint [cexB, cexA] = "3641e2cac5edbf244d4b9f3ee6b970e7a1edf9cbd97f404f0e0be280402d1152" := by
  have hb : blocks16
      (words32 (sha256Pad (utf8Bytes (digestPayloadJson [cexB, cexA]))).length
        (sha256Pad (utf8Bytes (digestPayloadJson [cexB, cexA])))).length
      (words32 (sha256Pad (utf8Bytes (digestPayloadJson [cexB, cexA]))).length
        (sha256Pad (utf8Bytes (digestPayloadJson [cexB, cexA])))) = [blkB1, blkB2] := by
    decide
  have hf : List.foldl sha256Block sha256H0 [blkB1, blkB2] =
      sha256Block (sha256Block sha256H0 blkB1) blkB2 := rfl
  simp only [fingerprint, sha256Hexdigest]
  rw [hb, hf, sha256Block_B1, sha256Block_B2]
  decide

/-! ## Claim theorems -/

/-- Concrete data shared by the witnesses below: an item revised at
2024-01-01T00:00:00Z, a 90/5 policy, and the evaluation instant
2024-03-26T00:00:00Z (85 days later); the hard deadline is
2024-03-31T00:00:00Z. -/
def wItem : VaultItem :=
  { id := "item-1", name := "Example Login", user_id := some "u1",
    collection_ids := [], revision_date := ⟨1704067200000000⟩,
    last_rotated_at := none }

def wPolicy : RotationPolicy :=
  { frequency_days := 90, grace_period_days := 5 }

def wNow : Datetime := ⟨1711411200000000⟩

def wCand : RotationCandidate := { item := wItem, due_at := ⟨1711843200000000⟩ }

def wResolver : VaultItem → Option String := fun _ => none

/-- C2: the selector emits a candidate for an item exactly when
`now ≥ effective_rotation_source + (frequency_days − grace_period_days)`
days, and every emitted candidate's `due_at` is
`effective_rotation_source + frequency_days` days (the hard deadline). -/
theorem select_due_items_spec (policy : RotationPolicy) (now : Datetime)
    (items : List VaultItem) (item : VaultItem) (hmem : item ∈ items) :
    ((∃ c ∈ select_due_items policy now items, c.item = item) ↔
      item.effective_rotation_source.add
        (policy.frequency_delta - policy.grace_delta) ≤ now) ∧
    ∀ c ∈ select_due_items policy now items,
      c.due_at = c.item.effective_rotation_source.add policy.frequency_delta := by
  constructor
  · constructor
    · rintro ⟨c, hc, rfl⟩
      simp only [select_due_items, List.mem_filterMap] at hc
      obtain ⟨a, _, hfa⟩ := hc
      by_cases h : a.effective_rotation_source.add
          (policy.frequency_delta - policy.grace_delta) ≤ now
      · rw [if_pos h] at hfa
        cases hfa
        exact h
      · rw [if_neg h] at hfa
        cases hfa
    · intro h
      exact ⟨⟨item, item.effective_rotation_source.add policy.frequency_delta⟩,
        by
          simp only [select_due_items, List.mem_filterMap]
          exact ⟨item, hmem, by rw [if_pos h]⟩,
        rfl⟩
  · intro c hc
    simp only [select_due_items, List.mem_filterMap] at hc
    obtain ⟨a, _, hfa⟩ := hc
    by_cases h : a.effective_rotation_source.add
        (policy.frequency_delta - policy.grace_delta) ≤ now
    · rw [if_pos h] at hfa
      cases hfa
      rfl
    · rw [if_neg h] at hfa
      cases hfa

/-- C2 witness: the spec scenario (85 days after a 2024-01-01 revision
under a 90/5 policy) instantiates the theorem; the reminder threshold is
reached and the due date reported is 2024-03-31T00:00:00Z. -/
theorem select_due_items_spec_witness :
    ((∃ c ∈ select_due_items wPolicy wNow [wItem], c.item = wItem) ↔
      wItem.effective_rotation_source.add
        (wPolicy.frequency_delta - wPolicy.grace_delta) ≤ wNow) ∧
    (∀ c ∈ select_due_items wPolicy wNow [wItem],
      c.due_at = c.item.effective_rotation_source.add wPolicy.frequency_delta) :=
  select_due_items_spec wPolicy wNow [wItem] wItem (by decide)

/-- C9: when selection produces no candidates, `run_once` makes no
notifier call (in either dispatch mode) and leaves the digest state
untouched. -/
theorem run_once_empty_no_dispatch (digestEnv : Option String)
    (policy : RotationPolicy) (resolver : VaultItem → Option String)
    (ciphers : List Payload) (now : Datetime) (st : StoredState)
    (writeOk send_notifications : Bool)
    (h : (run_once digestEnv policy resolver ciphers now st writeOk
      send_notifications).1 = []) :
    (run_once digestEnv policy resolver ciphers now st writeOk
      send_notifications).2.1 = [] ∧
    (run_once digestEnv policy resolver ciphers now st writeOk
      send_notifications).2.2 = st := by
  simp only [run_once] at h ⊢
  cases hcond : send_notifications && !(run_once_candidates policy ciphers now).isEmpty with
  | false => exact ⟨rfl, rfl⟩
  | true =>
      rw [hcond] at h
      simp only [if_true] at h
      rw [h] at hcond
      simp at hcond

/-- C9 witness: an empty cipher list yields no candidates, no notifier
call, and an unchanged state. -/
theorem run_once_empty_no_dispatch_witness :
    (run_once none wPolicy wResolver [] wNow StoredState.missing true
      true).2.1 = [] ∧
    (run_once none wPolicy wResolver [] wNow StoredState.missing true
      true).2.2 = StoredState.missing :=
  run_once_empty_no_dispatch none wPolicy wResolver [] wNow
    StoredState.missing true true (by decide)

/-- C10: when the computed fingerprint equals the stored one,
`_digest_has_changed` answers `false` and returns without writing: the
persisted digest state is exactly the state it started from. -/
theorem digest_unchanged_no_write (cands : List RotationCandidate)
    (st : StoredState) (writeOk : Bool)
    (h : st.read = some (fingerprint cands)) :
    digest_has_changed cands st writeOk = (false, st) := by
  simp only [digest_has_changed, h, if_pos]

/-- C10 witness: with the stored hash equal to the fingerprint of the
candidate list, the call reports no change and preserves the state. -/
theorem digest_unchanged_no_write_witness :
    digest_has_changed [wCand] (StoredState.hash (fingerprint [wCand])) true =
      (false, StoredState.hash (fingerprint [wCand])) :=
  digest_unchanged_no_write [wCand] (StoredState.hash (fingerprint [wCand]))
    true rfl

/-- C3: in digest mode, two consecutive cycles over the same digest-state
location with an identical candidate list send exactly one notification:
the first run (from a state not already holding this fingerprint) sends
one, and the second computes an unchanged fingerprint and dispatches
nothing. -/
theorem digest_two_runs_one_notification (digestEnv : Option String)
    (policy : RotationPolicy) (resolver : VaultItem → Option String)
    (cands : List RotationCandidate) (st : StoredState)
    (henv : digestEnabled digestEnv = true) (hne : cands ≠ [])
    (hst : st.read ≠ some (fingerprint cands)) :
    (dispatch_notifications digestEnv policy resolver cands st true).1.length
      = 1 ∧
    (dispatch_notifications digestEnv policy resolver cands
      (dispatch_notifications digestEnv policy resolver cands st true).2
      true).1 = [] := by
  have hchanged : digest_has_changed cands st true =
      (true, StoredState.hash (fingerprint cands)) := by
    simp [digest_has_changed, hst]
  have h1 := dispatch_notifications_digest digestEnv policy resolver cands st
    true henv hne
  rw [hchanged] at h1
  simp only [if_true] at h1
  have hchanged2 : digest_has_changed cands
      (StoredState.hash (fingerprint cands)) true =
      (false, StoredState.hash (fingerprint cands)) := by
    simp [digest_has_changed, StoredState.read]
  have h2 := dispatch_notifications_digest digestEnv policy resolver cands
    (StoredState.hash (fingerprint cands)) true henv hne
  rw [hchanged2] at h2
  simp only [Bool.false_eq_true, if_false] at h2
  rw [h1]
  constructor
  · rfl
  · rw [h2]

/-- C3 witness: starting from a missing state file, the scenario item's
digest run notifies once and the identical second run is silent. -/
theorem digest_two_runs_one_notification_witness :
    (dispatch_notifications none wPolicy wResolver [wCand]
      StoredState.missing true).1.length = 1 ∧
    (dispatch_notifications none wPolicy wResolver [wCand]
      (dispatch_notifications none wPolicy wResolver [wCand]
        StoredState.missing true).2 true).1 = [] :=
  digest_two_runs_one_notification none wPolicy wResolver [wCand]
    StoredState.missing rfl (by simp) (fun h => Option.noConfusion h)

/-- C8: digest persistence is best-effort — a missing or unreadable
state file reads as no prior state and the call reports changed; a
failing write changes neither the boolean result nor the notifications
dispatched in the run. -/
theorem digest_persistence_best_effort (digestEnv : Option String)
    (policy : RotationPolicy) (resolver : VaultItem → Option String)
    (cands : List RotationCandidate) (st : StoredState) (writeOk : Bool) :
    ((st = StoredState.missing ∨ st = StoredState.corrupt) →
      (digest_has_changed cands st writeOk).1 = true) ∧
    ((digest_has_changed cands st false).1 =
      (digest_has_changed cands st true).1) ∧
    ((dispatch_notifications digestEnv policy resolver cands st false).1 =
      (dispatch_notifications digestEnv policy resolver cands st true).1) := by
  refine ⟨?_, ?_, ?_⟩
  · rintro (rfl | rfl) <;> simp [digest_has_changed, StoredState.read]
  · simp only [digest_has_changed]
    split <;> rfl
  · by_cases hne : cands = []
    · subst hne
      simp [dispatch_notifications]
    · by_cases henv : digestEnabled digestEnv = true
      · rw [dispatch_notifications_digest digestEnv policy resolver cands st
          false henv hne,
          dispatch_notifications_digest digestEnv policy resolver cands st
          true henv hne]
        have hsame : (digest_has_changed cands st false).1 =
            (digest_has_changed cands st true).1 := by
          simp only [digest_has_changed]
          split <;> rfl
        rw [hsame]
      · have henv' : digestEnabled digestEnv = false :=
          Bool.eq_false_iff.mpr henv
        rw [dispatch_notifications_grouped digestEnv policy resolver cands st
          false henv' hne,
          dispatch_notifications_grouped digestEnv policy resolver cands st
          true henv' hne]

/-- C8 witness: from a missing state file the call reports changed, and
an unwritable state file still dispatches the same notifications. -/
theorem digest_persistence_best_effort_witness :
    (digest_has_changed [wCand] StoredState.missing true).1 = true ∧
    (dispatch_notifications none wPolicy wResolver [wCand]
      StoredState.missing false).1 =
    (dispatch_notifications none wPolicy wResolver [wCand]
      StoredState.missing true).1 :=
  ⟨(digest_persistence_best_effort none wPolicy wResolver [wCand]
      StoredState.missing true).1 (Or.inl rfl),
   (digest_persistence_best_effort none wPolicy wResolver [wCand]
      StoredState.missing true).2.2⟩

/-! ### Further grouping consequences -/

/-- Every key produced by the grouping loop is a truthy (non-empty)
email: the `if not email: continue` guard never lets `""` through. -/
lemma groupByRecipient_keys_ne_empty (resolver : VaultItem → Option String)
    (cands : List RotationCandidate) :
    ∀ k ∈ (groupByRecipient resolver cands).map Prod.fst, k ≠ "" := by
  have main : ∀ (l : List RotationCandidate)
      (acc : List (String × List RotationCandidate)),
      (∀ k ∈ acc.map Prod.fst, k ≠ "") →
      ∀ k ∈ (l.foldl (groupStep resolver) acc).map Prod.fst, k ≠ "" := by
    intro l
    induction l with
    | nil => intro acc h; simpa using h
    | cons c cs ih =>
        intro acc h
        apply ih
        intro k hk
        cases hr : resolver c.item with
        | none => exact h k (by simpa [groupStep, hr] using hk)
        | some e =>
            by_cases he : e = ""
            · exact h k (by simpa [groupStep, hr, he] using hk)
            · simp only [groupStep, hr, if_neg he] at hk
              rw [keys_addToGroup] at hk
              by_cases hm : e ∈ acc.map Prod.fst
              · rw [if_pos hm] at hk
                exact h k hk
              · rw [if_neg hm] at hk
                rcases List.mem_append.mp hk with h1 | h2
                · exact h k h1
                · rw [List.mem_singleton] at h2
                  subst h2
                  exact he
  intro k hk
  exact main cands [] (by simp) k (by simpa [groupByRecipient] using hk)

lemma mem_groupByRecipient_spec (resolver : VaultItem → Option String)
    (cands : List RotationCandidate) (k : String)
    (g : List RotationCandidate)
    (hmem : (k, g) ∈ groupByRecipient resolver cands) :
    k ≠ "" ∧ g = filterFor resolver k cands ∧ g ≠ [] := by
  have hk : k ≠ "" :=
    groupByRecipient_keys_ne_empty resolver cands k
      (List.mem_map.mpr ⟨(k, g), hmem, rfl⟩)
  have hn := keys_nodup_groupByRecipient resolver cands
  have hf := findGroup_of_mem _ hn k g hmem
  rw [findGroup_groupByRecipient resolver cands k hk] at hf
  by_cases he : filterFor resolver k cands = []
  · rw [if_pos he] at hf
    cases hf
  · rw [if_neg he] at hf
    cases hf
    exact ⟨hk, rfl, he⟩

lemma filterFor_ne_nil_iff (resolver : VaultItem → Option String)
    (e : String) (cands : List RotationCandidate) :
    filterFor resolver e cands ≠ [] ↔
      ∃ c ∈ cands, resolver c.item = some e := by
  constructor
  · intro h
    rcases List.exists_mem_of_ne_nil _ h with ⟨c, hc⟩
    rcases List.mem_filter.mp hc with ⟨hmem, hres⟩
    exact ⟨c, hmem, of_decide_eq_true hres⟩
  · rintro ⟨c, hmem, hres⟩ hnil
    have : c ∈ filterFor resolver e cands :=
      List.mem_filter.mpr ⟨hmem, decide_eq_true hres⟩
    rw [hnil] at this
    cases this

lemma groupByRecipient_nil_filterFor (resolver : VaultItem → Option String)
    (cands : List RotationCandidate) (e : String) (he : e ≠ "")
    (h : groupByRecipient resolver cands = []) :
    filterFor resolver e cands = [] := by
  have hf := findGroup_groupByRecipient resolver cands e he
  rw [h] at hf
  by_cases he : filterFor resolver e cands = []
  · exact he
  · rw [if_neg he] at hf
    cases hf

/-- C4 counterexample: with `send_digest = false` on the policy and the
`ROTATION_SNS_DIGEST` variable unset, dispatch still runs in digest mode
(one combined notification addressed to the sentinel "all"). -/
def c4Policy : RotationPolicy :=
  { frequency_days := 90, grace_period_days := 5, send_digest := false }

theorem send_digest_not_consulted :
    c4Policy.send_digest = false ∧
    (dispatch_notifications none c4Policy wResolver [wCand]
      StoredState.missing true).1.map Notification.recipient = ["all"] := by
  constructor
  · rfl
  · rfl

/-- C4 (amended): the dispatch mode is decided by the
`ROTATION_SNS_DIGEST` environment variable (default on), not by
`policy.send_digest` — the field is never consulted, digest mode sends
only to the sentinel "all", and per-recipient mode sends only to
resolved recipient addresses. -/
theorem dispatch_mode_from_env_not_policy (digestEnv : Option String)
    (policy : RotationPolicy) (resolver : VaultItem → Option String)
    (cands : List RotationCandidate) (st : StoredState) (writeOk b : Bool) :
    (dispatch_notifications digestEnv { policy with send_digest := b }
        resolver cands st writeOk =
      dispatch_notifications digestEnv policy resolver cands st writeOk) ∧
    (digestEnabled digestEnv = true →
      ∀ n ∈ (dispatch_notifications digestEnv policy resolver cands st
        writeOk).1, n.recipient = "all") ∧
    (digestEnabled digestEnv = false →
      ∀ n ∈ (dispatch_notifications digestEnv policy resolver cands st
        writeOk).1, ∃ c ∈ cands, resolver c.item = some n.recipient) := by
  refine ⟨rfl, ?_, ?_⟩
  · intro henv n hn
    by_cases hne : cands = []
    · subst hne
      simp [dispatch_notifications] at hn
    · rw [dispatch_notifications_digest digestEnv policy resolver cands st
        writeOk henv hne] at hn
      by_cases hch : (digest_has_changed cands st writeOk).1 = true
      · rw [if_pos hch] at hn
        rcases List.mem_singleton.mp hn with rfl
        rfl
      · rw [if_neg hch] at hn
        cases hn
  · intro henv n hn
    by_cases hne : cands = []
    · subst hne
      simp [dispatch_notifications] at hn
    · rw [dispatch_notifications_grouped digestEnv policy resolver cands st
        writeOk henv hne] at hn
      by_cases hg : (groupByRecipient resolver cands).isEmpty = true
      · rw [if_pos hg] at hn
        cases hn
      · rw [if_neg hg] at hn
        rcases List.mem_map.mp hn with ⟨⟨k, g⟩, hmem, rfl⟩
        have hspec := mem_groupByRecipient_spec resolver cands k g hmem
        exact (filterFor_ne_nil_iff resolver k cands).mp
          (hspec.2.1 ▸ hspec.2.2)

/-- C4 (amended) witness: with the variable unset the ignored-field
equation holds at a concrete policy, and the concrete digest-mode
notification is addressed to "all". -/
theorem dispatch_mode_from_env_not_policy_witness :
    (dispatch_notifications none { wPolicy with send_digest := false }
        wResolver [wCand] StoredState.missing true =
      dispatch_notifications none wPolicy wResolver [wCand]
        StoredState.missing true) ∧
    (Notification.mk "all" [wCand] (build_policy_summary wPolicy)).recipient
      = "all" :=
  ⟨(dispatch_mode_from_env_not_policy none wPolicy wResolver [wCand]
      StoredState.missing true false).1,
   (dispatch_mode_from_env_not_policy none wPolicy wResolver [wCand]
      StoredState.missing true false).2.1 (by decide)
      ⟨"all", [wCand], build_policy_summary wPolicy⟩ (by decide)⟩

lemma filter_fst_nil (gs : List (String × List RotationCandidate))
    (e : String) (h : e ∉ gs.map Prod.fst) :
    gs.filter (fun p => decide (p.1 = e)) = [] := by
  induction gs with
  | nil => rfl
  | cons p rest ih =>
      simp only [List.map_cons, List.mem_cons] at h
      push_neg at h
      have hne : ¬p.1 = e := fun hh => h.1 hh.symm
      simp [List.filter_cons, hne, ih h.2]

lemma filter_fst_length (gs : List (String × List RotationCandidate))
    (e : String) (hn : (gs.map Prod.fst).Nodup) :
    (gs.filter (fun p => decide (p.1 = e))).length =
      if (findGroup e gs).isSome then 1 else 0 := by
  induction gs with
  | nil => rfl
  | cons p rest ih =>
      obtain ⟨k, g⟩ := p
      simp only [List.map_cons, List.nodup_cons] at hn
      by_cases h : k = e
      · subst h
        have hnil : rest.filter (fun p => decide (p.1 = k)) = [] :=
          filter_fst_nil rest k hn.1
        simp [List.filter_cons, findGroup, hnil]
      · simp [List.filter_cons, findGroup, h, ih hn.2]

lemma count_recipient (gs : List (String × List RotationCandidate))
    (policy : RotationPolicy) (e : String) :
    ((gs.map fun g =>
        (⟨g.1, g.2, build_policy_summary policy⟩ : Notification)).filter
      (fun n => decide (n.recipient = e))).length =
    (gs.filter (fun p => decide (p.1 = e))).length := by
  induction gs with
  | nil => rfl
  | cons p rest ih =>
      by_cases h : p.1 = e <;> simp [List.filter_cons, h, ih]

/-- Helper for the `e = ""` count: no produced notification is addressed
to the empty string. -/
lemma filter_recipient_empty (l : List Notification)
    (h : ∀ n ∈ l, n.recipient ≠ "") :
    l.filter (fun n => decide (n.recipient = "")) = [] := by
  induction l with
  | nil => rfl
  | cons n rest ih =>
      have hn := h n (List.mem_cons_self n rest)
      simp [List.filter_cons, hn,
        ih (fun m hm => h m (List.mem_cons_of_mem n hm))]

/-- C5: in per-recipient mode, candidates are grouped by resolved
recipient email (each notification's items are exactly that recipient's
candidates, in order, never empty, and never addressed to the empty
string); candidates whose recipient resolves to nothing — `None` or the
falsy empty string — appear in no notification; and each truthy
recipient with at least one candidate resolving to it receives exactly
one notification. -/
theorem per_recipient_dispatch_spec (digestEnv : Option String)
    (policy : RotationPolicy) (resolver : VaultItem → Option String)
    (cands : List RotationCandidate) (st : StoredState) (writeOk : Bool)
    (henv : digestEnabled digestEnv = false) (hne : cands ≠ []) :
    (∀ n ∈ (dispatch_notifications digestEnv policy resolver cands st
        writeOk).1,
      n.recipient ≠ "" ∧
      n.items = filterFor resolver n.recipient cands ∧ n.items ≠ []) ∧
    (∀ e : String,
      (((dispatch_notifications digestEnv policy resolver cands st
          writeOk).1.filter (fun n => decide (n.recipient = e))).length =
        if e ≠ "" ∧ ∃ c ∈ cands, resolver c.item = some e then 1 else 0)) ∧
    (∀ c ∈ cands,
      (resolver c.item = none ∨ resolver c.item = some "") →
      ∀ n ∈ (dispatch_notifications digestEnv policy resolver cands st
        writeOk).1, c ∉ n.items) := by
  rw [dispatch_notifications_grouped digestEnv policy resolver cands st
    writeOk henv hne]
  by_cases hg : (groupByRecipient resolver cands).isEmpty = true
  · rw [if_pos hg]
    have hnil : groupByRecipient resolver cands = [] :=
      List.isEmpty_iff.mp hg
    refine ⟨?_, ?_, ?_⟩
    · intro n hn
      cases hn
    · intro e
      by_cases he : e = ""
      · subst he
        have hc : ¬((("" : String) ≠ "") ∧
            ∃ c ∈ cands, resolver c.item = some "") := by
          rintro ⟨h1, _⟩
          exact h1 rfl
        simp [hc]
      · have hfe := groupByRecipient_nil_filterFor resolver cands e he hnil
        have hnex : ¬∃ c ∈ cands, resolver c.item = some e := by
          rw [← filterFor_ne_nil_iff]
          exact fun h => h hfe
        have hc : ¬(e ≠ "" ∧ ∃ c ∈ cands, resolver c.item = some e) := by
          rintro ⟨_, h2⟩
          exact hnex h2
        simp [hc]
    · intro c _ _ n hn
      cases hn
  · rw [if_neg hg]
    have hmain : ∀ n ∈ (groupByRecipient resolver cands).map
        (fun g => (⟨g.1, g.2, build_policy_summary policy⟩ : Notification)),
        n.recipient ≠ "" ∧
        n.items = filterFor resolver n.recipient cands ∧ n.items ≠ [] := by
      intro n hn
      rcases List.mem_map.mp hn with ⟨⟨k, g⟩, hmem, rfl⟩
      exact mem_groupByRecipient_spec resolver cands k g hmem
    refine ⟨hmain, ?_, ?_⟩
    · intro e
      by_cases he : e = ""
      · subst he
        rw [filter_recipient_empty _ (fun n hn => (hmain n hn).1)]
        have hc : ¬((("" : String) ≠ "") ∧
            ∃ c ∈ cands, resolver c.item = some "") := by
          rintro ⟨h1, _⟩
          exact h1 rfl
        simp [hc]
      · rw [count_recipient, filter_fst_length _ e
          (keys_nodup_groupByRecipient resolver cands),
          findGroup_groupByRecipient resolver cands e he]
        by_cases hfe : filterFor resolver e cands = []
        · have hnex : ¬∃ c ∈ cands, resolver c.item = some e := by
            rw [← filterFor_ne_nil_iff]
            exact fun h => h hfe
          have hc : ¬(e ≠ "" ∧ ∃ c ∈ cands, resolver c.item = some e) := by
            rintro ⟨_, h2⟩
            exact hnex h2
          simp [hfe, hc]
        · have hc : e ≠ "" ∧ ∃ c ∈ cands, resolver c.item = some e :=
            ⟨he, (filterFor_ne_nil_iff resolver e cands).mp hfe⟩
          simp [hfe, hc]
    · intro c _ hbad n hn hinn
      have hspec := hmain n hn
      rw [hspec.2.1] at hinn
      rcases List.mem_filter.mp hinn with ⟨_, hres⟩
      have hres2 := of_decide_eq_true hres
      rcases hbad with hb | hb
      · rw [hb] at hres2
        cases hres2
      · rw [hb] at hres2
        exact hspec.1 (Option.some.inj hres2).symm

/-- Data for the C5 witness: a second item owned by a different user,
and a resolver mapping user ids to addresses. -/
def wItem2 : VaultItem :=
  { id := "item-2", name := "Other Login", user_id := some "u2",
    collection_ids := [], revision_date := ⟨1704067200000000⟩,
    last_rotated_at := none }

def wCand2 : RotationCandidate := { item := wItem2, due_at := ⟨1711843200000000⟩ }

def wResolver2 : VaultItem → Option String := fun it =>
  match it.user_id with
  | some u => some (u ++ "@example.com")
  | none => none

/-- C5 witness: per-recipient mode (variable set to "0"), two items owned
by different users; the recipient resolved from the first user gets
exactly one notification. -/
theorem per_recipient_dispatch_spec_witness :
    ((dispatch_notifications (some "0") wPolicy wResolver2 [wCand, wCand2]
        StoredState.missing true).1.filter
      (fun n => decide (n.recipient = "u1@example.com"))).length =
      (if ("u1@example.com" : String) ≠ "" ∧
          ∃ c ∈ [wCand, wCand2], wResolver2 c.item = some "u1@example.com"
        then 1 else 0) :=
  (per_recipient_dispatch_spec (some "0") wPolicy wResolver2 [wCand, wCand2]
    StoredState.missing true (by decide) (by simp)).2.1 "u1@example.com"

/-- C6 counterexample: an item whose display name is the empty string.
The name contains neither `.` nor `|` and is not longer than 60, so the
claim requires the label to be the name as-is — but the code renders
`"(Unnamed)"` instead. -/
def c6Item : VaultItem :=
  { id := "abcdefgh-1234", name := "", user_id := none,
    collection_ids := [], revision_date := ⟨0⟩, last_rotated_at := none }

def c6Cand : RotationCandidate := { item := c6Item, due_at := ⟨0⟩ }

theorem label_for_empty_name_counterexample :
    ¬((c6Cand.item.name.data.contains '.' = true ∧
        c6Cand.item.name.data.contains '|' = true) ∨
      c6Cand.item.name.length > 60) ∧
    label_for c6Cand ≠ c6Cand.item.name ∧
    label_for c6Cand = "(Unnamed)" := by
  refine ⟨?_, ?_, ?_⟩ <;> decide

/-- C6 (amended): the rendered label is the generic type label plus the
8-character id prefix exactly when the *displayed* name (the item name,
or `"(Unnamed)"` when the name is empty) contains both `.` and `|` or is
longer than 60 characters; otherwise the label is that displayed name
(the raw name whenever the name is non-empty). -/
theorem label_for_spec (c : RotationCandidate) :
    ((((displayed_name c).data.contains '.' = true ∧
        (displayed_name c).data.contains '|' = true) ∨
      (displayed_name c).length > 60) →
      label_for c = "(" ++ type_label c ++ ") ID:" ++
        (if String.mk (c.item.id.data.take 8) = "" then "unknown"
          else String.mk (c.item.id.data.take 8))) ∧
    (¬(((displayed_name c).data.contains '.' = true ∧
        (displayed_name c).data.contains '|' = true) ∨
      (displayed_name c).length > 60) →
      label_for c = displayed_name c) := by
  have hne : ¬displayed_name c = "" := by
    unfold displayed_name
    split
    · decide
    · next h => exact h
  constructor
  · intro hcond
    have henc : looks_encrypted (displayed_name c) = true := by
      unfold looks_encrypted
      rw [if_neg hne]
      simp only [Bool.or_eq_true, Bool.and_eq_true, decide_eq_true_eq]
      rcases hcond with ⟨h1, h2⟩ | h3
      · exact Or.inl ⟨h2, h1⟩
      · exact Or.inr h3
    simp only [label_for, henc, if_true]
  · intro hcond
    have henc : looks_encrypted (displayed_name c) = false := by
      unfold looks_encrypted
      rw [if_neg hne]
      rw [Bool.eq_false_iff]
      intro hb
      apply hcond
      simp only [Bool.or_eq_true, Bool.and_eq_true, decide_eq_true_eq] at hb
      rcases hb with ⟨h1, h2⟩ | h3
      · exact Or.inl ⟨h2, h1⟩
      · exact Or.inr h3
    simp only [label_for, henc, Bool.false_eq_true, if_false]

/-- C6 (amended) witness: the spec scenario name
`"2.ab3F==|c9Zp==|xyQ=="` is ciphertext-shaped and renders as the
generic type-and-id label; a plain name renders as-is. -/
def c6Item2 : VaultItem :=
  { id := "abcdefgh-1234", name := "2.ab3F==|c9Zp==|xyQ==", user_id := none,
    collection_ids := [], revision_date := ⟨0⟩, last_rotated_at := none }

def c6Cand2 : RotationCandidate := { item := c6Item2, due_at := ⟨0⟩ }

theorem label_for_spec_witness :
    label_for c6Cand2 = "(" ++ type_label c6Cand2 ++ ") ID:" ++
      (if String.mk (c6Cand2.item.id.data.take 8) = "" then "unknown"
        else String.mk (c6Cand2.item.id.data.take 8)) ∧
    label_for wCand = displayed_name wCand :=
  ⟨(label_for_spec c6Cand2).1 (by decide),
   (label_for_spec wCand).2 (by decide)⟩

/-- C7: normalization is total.  `VaultItem.from_api` is a total function
(no exception can escape — every branch of `_parse_timestamp` catches its
`ValueError`s and degrades to `None`): an unparseable or missing
`revision_date` falls back to the evaluation clock, an unparseable
`last_rotated_at` (both field spellings) yields absence, and
`effective_rotation_source` is then the concrete `revision_date`, so it
is always a concrete timestamp. -/
theorem normalization_total (p : Payload) (now : Datetime) :
    ((VaultItem.from_api p now).last_rotated_at = none →
      (VaultItem.from_api p now).effective_rotation_source =
        (VaultItem.from_api p now).revision_date) ∧
    (parse_timestamp (some (p.revisionDate.getD "")) = none →
      (VaultItem.from_api p now).revision_date = now) ∧
    (∀ d : Datetime, parse_timestamp (some (p.revisionDate.getD "")) = some d →
      (VaultItem.from_api p now).revision_date = d) ∧
    (parse_timestamp (some (strOfOpt p.passwordRotation)) = none →
      parse_timestamp (some (strOfOpt p.lastPasswordRotation)) = none →
      (VaultItem.from_api p now).last_rotated_at = none) := by
  refine ⟨?_, ?_, ?_, ?_⟩
  · intro h
    simp only [VaultItem.effective_rotation_source, h, Option.getD_none]
  · intro h
    simp only [VaultItem.from_api, h, Option.getD_none]
  · intro d h
    simp only [VaultItem.from_api, h, Option.getD_some]
  · intro h1 h2
    simp only [VaultItem.from_api, h1, h2]

/-- C7 witness: a malformed `revisionDate` string and absent rotation
fields degrade to the evaluation clock and to absence; nothing fails. -/
def c7Payload : Payload :=
  { id := some "x1", name := some "Entry", organizationId := none,
    userId := none, revisionDate := some "not-a-timestamp",
    passwordRotation := none, lastPasswordRotation := none,
    collectionId := none, collectionIds := none }

theorem normalization_total_witness :
    (VaultItem.from_api c7Payload wNow).revision_date = wNow ∧
    (VaultItem.from_api c7Payload wNow).last_rotated_at = none ∧
    (VaultItem.from_api c7Payload wNow).effective_rotation_source = wNow := by
  have h := normalization_total c7Payload wNow
  have hlast : (VaultItem.from_api c7Payload wNow).last_rotated_at = none :=
    h.2.2.2 (by decide) (by decide)
  have hrev : (VaultItem.from_api c7Payload wNow).revision_date = wNow :=
    h.2.1 (by decide)
  exact ⟨hrev, hlast, by rw [h.1 hlast, hrev]⟩

/-- C1: fingerprinting is NOT invariant under permutation of the
candidate list.  `json.dumps(payload, sort_keys=True)` canonicalizes only
the dict keys inside each entry, not the order of the list itself, so the
two orderings of the same two candidates hash to different SHA-256
digests. -/
theorem fingerprint_order_dependent :
    List.Perm [cexA, cexB] [cexB, cexA] ∧
    fingerprint [cexA, cexB] ≠ fingerprint [cexB, cexA] := by
  constructor
  · exact List.Perm.swap cexB cexA []
  · rw [fingerprint_cexA, fingerprint_cexB]
    decide

end VWRotation
